import Mathlib

/-!
Verification development for the sales-order dashboard pipeline
(`src/app.py`).  The pipeline is shallowly embedded: pandas cells that can
be NaN/NaT after `errors='coerce'` become `Option` values (`none` = the
missing marker), monetary and quantity floats become exact rationals,
dates become integer day numbers, and a Python exception aborting the run
becomes `Except.error ()`.
-/

/-- ASCII whitespace class of Python's regex `\s` / `str.strip`
(space, tab, newline, carriage return, vertical tab, form feed). -/
def isPySpace (c : Char) : Bool :=
  c = ' ' || c = '\t' || c = '\n' || c = '\r' || c = '\x0b' || c = '\x0c'

/-- Character class of the regex `[\d\.]`. -/
def isDigitOrDot (c : Char) : Bool := c.isDigit || c = '.'

/-- Value of a (possibly empty) digit string, most significant digit first. -/
def digitsToNat (l : List Char) : Nat :=
  l.foldl (fun a c => a * 10 + (c.toNat - '0'.toNat)) 0

/-- Python `float()` applied to a nonempty string over the charset `[0-9.]`
(what the regex group `([\d\.]+)` can capture): succeeds on `ddd`, `ddd.ddd`,
`ddd.`, `.ddd`; raises `ValueError` (modelled as `none`) on a lone `.` or on
a string with more than one dot. -/
def pyFloat (s : List Char) : Option ℚ :=
  let ip := s.takeWhile (fun c => c.isDigit)
  let rest := s.drop ip.length
  match rest with
  | [] => if ip.isEmpty then none else some (digitsToNat ip : ℚ)
  | '.' :: fp =>
    if fp.all (fun c => c.isDigit) then
      if ip.isEmpty && fp.isEmpty then none
      else some ((digitsToNat ip : ℚ) + (digitsToNat fp : ℚ) / (10 : ℚ) ^ fp.length)
    else none
  | _ => none

/-- One attempted match of the regex `<label>\s*([\d\.]+)` at the start of
`l`: the literal label, then a maximal run of whitespace, then a maximal
nonempty run of `[\d\.]` characters (the captured group).  Greediness with
backtracking collapses to this because `\s` and `[\d\.]` are disjoint. -/
def matchNumAt (label l : List Char) : Option (List Char) :=
  if label.isPrefixOf l then
    let rest := (l.drop label.length).dropWhile isPySpace
    let num := rest.takeWhile isDigitOrDot
    if num.isEmpty then none else some num
  else none

/-- `re.search` for the pattern `<label>\s*([\d\.]+)`: leftmost starting
position wins; returns the captured numeric group. -/
def reSearchNum (label : List Char) : List Char → Option (List Char)
  | [] => none
  | c :: t =>
    match matchNumAt label (c :: t) with
    | some n => some n
    | none => reSearchNum label t

/-- Python `str.strip()`: drop whitespace from both ends. -/
def trimChars (l : List Char) : List Char :=
  ((l.dropWhile isPySpace).reverse.dropWhile isPySpace).reverse

/-- Label of the regex `PO Qty:\s*([\d\.]+)` (src/app.py line 57). -/
def poQtyLabel : List Char := "PO Qty:".data

/-- Label of the regex `Supplied Qty:\s*([\d\.]+)` (src/app.py line 58). -/
def suppliedQtyLabel : List Char := "Supplied Qty:".data

/-- Round to the nearest integer, ties to even: the rounding used by
Python's builtin `round` (binary-float representation noise is abstracted;
all values rounded in this development are exact decimals). -/
def rndEven (x : ℚ) : ℤ :=
  let f : ℤ := ⌊x⌋
  let r : ℚ := x - (f : ℚ)
  if r < 1 / 2 then f
  else if 1 / 2 < r then f + 1
  else if f % 2 = 0 then f else f + 1

/-- Python `round(x, 1)`. -/
def pyRound1 (x : ℚ) : ℚ := ((rndEven (x * 10) : ℤ) : ℚ) / 10

/-- Python `round(x, 2)`. -/
def pyRound2 (x : ℚ) : ℚ := ((rndEven (x * 100) : ℤ) : ℚ) / 100

/-- numpy float64 division: a zero denominator produces NaN or ±inf
(modelled as `none`) instead of raising; otherwise the exact quotient. -/
def npDiv (a b : ℚ) : Option ℚ := if b = 0 then none else some (a / b)

/-- One record of the uploaded table after the Field Normalizer
(src/app.py lines 36-44): dates coerced by `pd.to_datetime(errors='coerce',
dayfirst=True)` to day numbers (`none` = NaT), numerics by
`pd.to_numeric(errors='coerce')` (`none` = NaN), and `Item_Qty_Details`
taken through Python `str()` (so a missing cell is the text `nan`). -/
structure RawRow where
  So_No : Nat
  Customer_Name : String
  Site_Address : String
  Po_Date : Option Int
  Scheduled_Date : Option Int
  Invoice_Dates : Option Int
  PO_Value : Option ℚ
  Supplied_Value : Option ℚ
  Item_Qty_Details : String
deriving DecidableEq

/-- One expanded line item (src/app.py lines 62-66): `row.to_dict()` copies
every raw field, then `Product_Name`, `PO_Qty`, `Supplied_Qty` are added. -/
structure LineItem extends RawRow where
  Product_Name : String
  PO_Qty : ℚ
  Supplied_Qty : ℚ
deriving DecidableEq

/-- Quantity extraction for one item line (src/app.py lines 57-60):
`m = re.search(label + '\s*([\d\.]+)', item)`, then
`float(m.group(1)) if m else 0`.  `some 0` when the label is absent;
`none` models `float()` raising `ValueError` on a degenerate capture. -/
def qtyOf (label line : List Char) : Option ℚ :=
  match reSearchNum label line with
  | none => some 0
  | some num => pyFloat num

/-- Product name of an item line: `parts[0].strip()` where
`parts = item.split('|')` (src/app.py line 56). -/
def productOfLine (line : List Char) : String :=
  String.mk (trimChars ((line.splitOn '|').headD []))

/-- Processing of one item line (src/app.py lines 53-66):
`ok none` = the line has fewer than 4 pipe-separated parts and is skipped;
`ok (some li)` = a line item is appended; `error ()` = `float()` raised. -/
def expandLine (r : RawRow) (line : List Char) : Except Unit (Option LineItem) :=
  if 4 ≤ (line.splitOn '|').length then
    match qtyOf poQtyLabel line, qtyOf suppliedQtyLabel line with
    | some pq, some sq =>
      .ok (some { toRawRow := r, Product_Name := productOfLine line,
                  PO_Qty := pq, Supplied_Qty := sq })
    | _, _ => .error ()
  else .ok none

/-- The line item a well-formed, non-crashing line produces (specification
view of `expandLine`; `getD 0` coincides with the code exactly when
`qtyOf` succeeded). -/
def itemOfLine (r : RawRow) (line : List Char) : LineItem :=
  { toRawRow := r, Product_Name := productOfLine line,
    PO_Qty := (qtyOf poQtyLabel line).getD 0,
    Supplied_Qty := (qtyOf suppliedQtyLabel line).getD 0 }

/-- The inner `for item in item_details` loop of src/app.py lines 53-66. -/
def expandLines (r : RawRow) : List (List Char) → Except Unit (List LineItem)
  | [] => .ok []
  | line :: rest =>
    match expandLine r line with
    | .error e => .error e
    | .ok none => expandLines r rest
    | .ok (some li) =>
      match expandLines r rest with
      | .error e => .error e
      | .ok t => .ok (li :: t)

/-- Expansion of one raw row: `str(row['Item_Qty_Details']).split('\n')`
then the per-line loop (src/app.py lines 51-66). -/
def expandRawRow (r : RawRow) : Except Unit (List LineItem) :=
  expandLines r (r.Item_Qty_Details.data.splitOn '\n')

/-- The item-detail lines of a row that have at least 4 pipe-separated
parts (the well-formed lines). -/
def wfLines (r : RawRow) : List (List Char) :=
  (r.Item_Qty_Details.data.splitOn '\n').filter
    (fun l => decide (4 ≤ (l.splitOn '|').length))

/-- The `expanded_rows` list built by the outer `df.iterrows()` loop
(src/app.py lines 49-66). -/
def expanded_rows : List RawRow → Except Unit (List LineItem)
  | [] => .ok []
  | r :: t =>
    match expandRawRow r with
    | .error e => .error e
    | .ok h =>
      match expanded_rows t with
      | .error e => .error e
      | .ok rest => .ok (h ++ rest)

/-- `clean_df.dropna(subset=['Po_Date', 'Scheduled_Date'])`
(src/app.py line 81): a row is kept iff BOTH dates parsed. -/
def dropMissingDates (rows : List LineItem) : List LineItem :=
  rows.filter (fun li => li.Po_Date.isSome && li.Scheduled_Date.isSome)

/-- The `clean_df` table after expansion and the date filter
(src/app.py lines 68-81); the re-coercion of already-typed date columns at
lines 73-76 is the identity here. -/
def clean_df (t : List RawRow) : Except Unit (List LineItem) :=
  (expanded_rows t).map dropMissingDates

/-- `clean_df['Lead_Time'] = (clean_df['Invoice_Dates'] - clean_df['Po_Date']).dt.days`
(src/app.py line 86): day difference, NaN (`none`) when either date is NaT. -/
def Lead_Time (li : LineItem) : Option Int :=
  match li.Invoice_Dates, li.Po_Date with
  | some i, some p => some (i - p)
  | _, _ => none

/-- The pandas comparison `clean_df['Invoice_Dates'] <= clean_df['Scheduled_Date']`
(src/app.py line 90): any comparison against NaT is `false`. -/
def invoiceLeScheduled (li : LineItem) : Bool :=
  match li.Invoice_Dates, li.Scheduled_Date with
  | some i, some s => decide (i ≤ s)
  | _, _ => false

/-- `np.where(Invoice_Dates <= Scheduled_Date, 'On-Time', 'Delayed')`
(src/app.py lines 89-92). -/
def Delivery_Status (li : LineItem) : String :=
  if invoiceLeScheduled li then "On-Time" else "Delayed"

/-- `np.where(PO_Qty > 0, PO_Value / PO_Qty, 0)` (src/app.py lines 105-109):
`np.where` selects per element, so a zero quantity yields the literal 0 and
the division result (NaN when `PO_Value` is NaN) is used only when
`PO_Qty > 0`. -/
def Avg_Order_Value (li : LineItem) : Option ℚ :=
  if 0 < li.PO_Qty then li.PO_Value.map (fun v => v / li.PO_Qty) else some 0

/-- `total_sales = round(df['PO_Value'].sum(), 2)` (src/app.py line 118):
summed over the RAW table `df` (pandas `sum` skips NaN, so a missing value
contributes 0). -/
def total_sales (t : List RawRow) : ℚ :=
  pyRound2 ((t.map (fun r => r.PO_Value.getD 0)).sum)

/-- `avg_lead_time = round(clean_df['Lead_Time'].mean(), 1)` (src/app.py
line 120): pandas `mean` skips NaN and is NaN (`none`) on an all-NaN/empty
column; negative lead times are NOT excluded. -/
def avg_lead_time (rows : List LineItem) : Option ℚ :=
  let v := rows.filterMap Lead_Time
  if v.isEmpty then none
  else some (pyRound1 (((v.sum : Int) : ℚ) / (v.length : ℚ)))

/-- Stable insertion of one string in ascending order (`Ord String`). -/
def insertStrAsc (s : String) : List String → List String
  | [] => [s]
  | t :: r =>
    match compare s t with
    | .gt => t :: insertStrAsc s r
    | _ => s :: t :: r

/-- Ascending sort of the group keys, as pandas `groupby` produces. -/
def sortStrAsc (l : List String) : List String :=
  l.foldr insertStrAsc []

/-- First-occurrence deduplication of a key list. -/
def dedupFirst (l : List String) : List String :=
  l.foldl (fun acc c => if acc.contains c then acc else acc ++ [c]) []

/-- The distinct customer names of the table, in pandas `groupby` key
order (ascending). -/
def customerKeys (rows : List LineItem) : List String :=
  sortStrAsc (dedupFirst (rows.map (fun li => li.Customer_Name)))

/-- `clean_df.groupby('Customer_Name')['PO_Value'].sum()` (src/app.py
line 123): per-customer sum, NaN values contributing 0. -/
def customerValueSums (rows : List LineItem) : List (String × ℚ) :=
  (customerKeys rows).map (fun c =>
    (c, ((rows.filter (fun li => li.Customer_Name == c)).map
          (fun li => li.PO_Value.getD 0)).sum))

/-- Insertion of one entry in descending order of value.  The source's
`sort_values(ascending=False)` uses a non-stable quicksort, so the order
among equal values is unspecified there; no claim depends on it. -/
def insertDescBySnd (x : String × ℚ) : List (String × ℚ) → List (String × ℚ)
  | [] => [x]
  | y :: r => if y.2 < x.2 then x :: y :: r else y :: insertDescBySnd x r

/-- Descending sort by value. -/
def sortDescBySnd (l : List (String × ℚ)) : List (String × ℚ) :=
  l.foldr insertDescBySnd []

/-- `top_customers_20perc = ...sum().sort_values(ascending=False)`
(src/app.py line 123). -/
def top_customers_20perc (rows : List LineItem) : List (String × ℚ) :=
  sortDescBySnd (customerValueSums rows)

/-- Number of distinct customers (`len(top_customers_20perc)`). -/
def numCustomers (rows : List LineItem) : Nat :=
  (customerKeys rows).length

/-- `top_20perc_customers_value = round(top_customers_20perc[:int(len(...) * 0.2)].sum(), 2)`
(src/app.py line 124).  With IEEE doubles `int(n * 0.2)` equals the integer
division `n / 5` for every realistic `n` (0.2 rounds up in binary, so the
product never rounds below `n/5`, and its error is far below 1), which is
how the truncating slice bound is modelled. -/
def top_20perc_customers_value (rows : List LineItem) : ℚ :=
  pyRound2 ((((top_customers_20perc rows).take
    ((top_customers_20perc rows).length / 5)).map Prod.snd).sum)

/-- `total_value = clean_df['PO_Value'].sum()` (src/app.py line 125):
line-item granularity, NaN contributing 0. -/
def total_value (rows : List LineItem) : ℚ :=
  (rows.map (fun li => li.PO_Value.getD 0)).sum

/-- `round(top_20perc_customers_value / total_value * 100, 1)`
(src/app.py line 137): an unguarded numpy division, NaN (`none`) when
`total_value` is 0. -/
def top20SharePct (rows : List LineItem) : Option ℚ :=
  (npDiv (top_20perc_customers_value rows) (total_value rows)).map
    (fun q => pyRound1 (q * 100))

/-- The columns of `clean_df` after all assignments of src/app.py lines
68-113: the raw columns copied by `row.to_dict()`, the three expansion
columns, and the derived columns added in order. -/
def clean_df_columns : List String :=
  ["So_No", "Customer_Name", "Site_Address", "Po_Date", "Scheduled_Date",
   "Invoice_Dates", "PO_Value", "Supplied_Value", "Item_Qty_Details",
   "Product_Name", "PO_Qty", "Supplied_Qty",
   "Lead_Time", "Schedule_Delay", "Delivery_Status",
   "Order_Month", "Order_Year", "Order_Quarter",
   "Last_Invoice_Date", "Dormancy_Days", "Avg_Order_Value", "Order_Status"]

/-- `product_trend = clean_df.groupby(['Order_Month', 'Product_Name'])['Ordered_Qty'].sum()`
(src/app.py lines 362-364): pandas raises `KeyError` when the grouped
column selection names a column the frame does not have. -/
def product_trend (t : List RawRow) : Except Unit Unit :=
  (clean_df t).bind (fun _ =>
    if clean_df_columns.contains "Order_Month"
        && clean_df_columns.contains "Product_Name" then
      if clean_df_columns.contains "Ordered_Qty" then .ok () else .error ()
    else .error ())

/-- Wrapper running `avg_lead_time` on the pipeline's clean table. -/
def avg_lead_time_run (t : List RawRow) : Except Unit (Option ℚ) :=
  (clean_df t).map avg_lead_time

/-- Wrapper running `top_20perc_customers_value` on the clean table. -/
def top20_value_run (t : List RawRow) : Except Unit ℚ :=
  (clean_df t).map top_20perc_customers_value

/-- Wrapper running the top-20% share on the clean table. -/
def top20_share_run (t : List RawRow) : Except Unit (Option ℚ) :=
  (clean_df t).map top20SharePct

/-- First-occurrence deduplication of raw rows on the order id `So_No`,
the spec's derivation of `OrderSummaryRow` (spec section 3). -/
def dedupBySoAux (seen : List Nat) : List RawRow → List RawRow
  | [] => []
  | r :: t =>
    if seen.contains r.So_No then dedupBySoAux seen t
    else r :: dedupBySoAux (r.So_No :: seen) t

/-- Deduplication on order id, starting from no seen ids. -/
def dedupBySo (t : List RawRow) : List RawRow := dedupBySoAux [] t

/-- Total sales as the spec words it for C2: the sum of `PO_Value` over the
table deduplicated on order id (each order id contributing once). -/
def spec_total_sales_dedup (t : List RawRow) : ℚ :=
  pyRound2 (((dedupBySo t).map (fun r => r.PO_Value.getD 0)).sum)

/-- The top-20% customer value as the spec words it for C7: take the top
`ceil(20% of customer count)` customers of the descending sort. -/
def spec_top_20perc_customers_value (rows : List LineItem) : ℚ :=
  pyRound2 ((((top_customers_20perc rows).take
    (Nat.ceil ((numCustomers rows : ℚ) / 5))).map Prod.snd).sum)

/-- Wrapper running the spec-side top-20% value on the clean table. -/
def spec_top20_value_run (t : List RawRow) : Except Unit ℚ :=
  (clean_df t).map spec_top_20perc_customers_value

/-- The average lead time as the spec words it for C6: the mean over rows
whose lead time is defined AND non-negative. -/
def spec_avg_lead_time (rows : List LineItem) : Option ℚ :=
  let v := (rows.filterMap Lead_Time).filter (fun x => decide (0 ≤ x))
  if v.isEmpty then none
  else some (pyRound1 (((v.sum : Int) : ℚ) / (v.length : ℚ)))

/-- Wrapper running the spec-side average lead time on the clean table. -/
def spec_avg_lead_time_run (t : List RawRow) : Except Unit (Option ℚ) :=
  (clean_df t).map spec_avg_lead_time

/-- Modelled from the spec: the Revenue Allocator (spec section 4.4) is
absent from src/app.py (no `Allocated_Value` is computed anywhere in the
source; only the expansion it would run on exists).  `Total_Qty` is the
spec's sum of ordered quantity across all line items of one order id. -/
def Total_Qty (rows : List LineItem) (so : Nat) : ℚ :=
  ((rows.filter (fun li => li.So_No == so)).map (fun li => li.PO_Qty)).sum

/-- Modelled from the spec: `Allocated_Value = PO_Value * (own_qty / Total_Qty)`
when `Total_Qty > 0`, else 0 (spec section 4.4). -/
def Allocated_Value (rows : List LineItem) (li : LineItem) : ℚ :=
  if 0 < Total_Qty rows li.So_No then
    li.PO_Value.getD 0 * (li.PO_Qty / Total_Qty rows li.So_No)
  else 0

/-- Modelled from the spec: the sum of allocated values across one order's
line items, which the spec's invariant compares with the order's
`PO_Value`. -/
def orderAllocatedSum (rows : List LineItem) (so : Nat) : ℚ :=
  ((rows.filter (fun li => li.So_No == so)).map (Allocated_Value rows)).sum

/-- The raw row of the spec section 8 scenario: `So_No=1, PO_Value=100,`
two item lines with PO Qty 3 (WidgetA) and 1 (WidgetB). -/
def scenario_row : RawRow :=
  { So_No := 1, Customer_Name := "Acme", Site_Address := "X",
    Po_Date := some 0, Scheduled_Date := some 10, Invoice_Dates := some 5,
    PO_Value := some 100, Supplied_Value := some 100,
    Item_Qty_Details :=
      "WidgetA|PO Qty: 3|Supplied Qty: 3|x\nWidgetB|PO Qty: 1|Supplied Qty: 1|x" }

/-- The WidgetA line item of the scenario, written out. -/
def scenario_itemA : LineItem :=
  { toRawRow := scenario_row, Product_Name := "WidgetA",
    PO_Qty := 3, Supplied_Qty := 3 }

/-- The WidgetB line item of the scenario, written out. -/
def scenario_itemB : LineItem :=
  { toRawRow := scenario_row, Product_Name := "WidgetB",
    PO_Qty := 1, Supplied_Qty := 1 }

/-- The scenario's expanded line-item table. -/
def scenario_items : List LineItem := [scenario_itemA, scenario_itemB]

/-- C2 counterexample input: the same order id on two raw rows, each
carrying `PO_Value = 100`. -/
def c2_dup_table : List RawRow :=
  [{ So_No := 1, Customer_Name := "Acme", Site_Address := "X",
     Po_Date := some 0, Scheduled_Date := some 10, Invoice_Dates := some 5,
     PO_Value := some 100, Supplied_Value := some 100,
     Item_Qty_Details := "W|PO Qty: 1|Supplied Qty: 1|x" },
   { So_No := 1, Customer_Name := "Acme", Site_Address := "X",
     Po_Date := some 0, Scheduled_Date := some 10, Invoice_Dates := some 5,
     PO_Value := some 100, Supplied_Value := some 100,
     Item_Qty_Details := "W|PO Qty: 1|Supplied Qty: 1|x" }]

/-- C2 witness input: two raw rows with distinct order ids. -/
def c2_nodup_table : List RawRow :=
  [{ So_No := 1, Customer_Name := "Acme", Site_Address := "X",
     Po_Date := some 0, Scheduled_Date := some 10, Invoice_Dates := some 5,
     PO_Value := some 100, Supplied_Value := some 100,
     Item_Qty_Details := "W|PO Qty: 1|Supplied Qty: 1|x" },
   { So_No := 2, Customer_Name := "Bolt", Site_Address := "Y",
     Po_Date := some 0, Scheduled_Date := some 10, Invoice_Dates := none,
     PO_Value := some 50, Supplied_Value := none,
     Item_Qty_Details := "W|PO Qty: 2|Supplied Qty: 1|x" }]

/-- C3/C8 crash input: a 4-part item line whose `PO Qty:` capture is a lone
dot, on which Python's `float('.')` raises `ValueError`. -/
def c8_crash_row : RawRow :=
  { So_No := 7, Customer_Name := "Acme", Site_Address := "X",
    Po_Date := some 0, Scheduled_Date := some 10, Invoice_Dates := some 5,
    PO_Value := some 100, Supplied_Value := some 100,
    Item_Qty_Details := "a|b|c|PO Qty: ." }

/-- C4 counterexample input row: a clean row whose `PO_Value` is 0, so the
total customer value is 0. -/
def c4_row : RawRow :=
  { So_No := 1, Customer_Name := "Acme", Site_Address := "X",
    Po_Date := some 0, Scheduled_Date := some 10, Invoice_Dates := some 5,
    PO_Value := some 0, Supplied_Value := some 0,
    Item_Qty_Details := "W|PO Qty: 1|Supplied Qty: 1|x" }

/-- C4 counterexample table. -/
def c4_table : List RawRow := [c4_row]

/-- The line item the C4 row expands to. -/
def c4_item : LineItem := itemOfLine c4_row "W|PO Qty: 1|Supplied Qty: 1|x".data

/-- C5 counterexample input: the PO date parses but the scheduled date does
not (`none` after `errors='coerce'`). -/
def c5_row : RawRow :=
  { So_No := 1, Customer_Name := "Acme", Site_Address := "X",
    Po_Date := some 0, Scheduled_Date := none, Invoice_Dates := some 5,
    PO_Value := some 100, Supplied_Value := some 100,
    Item_Qty_Details := "W|PO Qty: 1|Supplied Qty: 1|x" }

/-- C5 counterexample table. -/
def c5_table : List RawRow := [c5_row]

/-- The line item the C5 row expands to (PO date present, scheduled date
missing). -/
def c5_item : LineItem := itemOfLine c5_row "W|PO Qty: 1|Supplied Qty: 1|x".data

/-- C6 counterexample input, first row: lead time 4. -/
def c6_row1 : RawRow :=
  { So_No := 1, Customer_Name := "Acme", Site_Address := "X",
    Po_Date := some 0, Scheduled_Date := some 100, Invoice_Dates := some 4,
    PO_Value := some 100, Supplied_Value := some 100,
    Item_Qty_Details := "W|PO Qty: 1|Supplied Qty: 1|x" }

/-- C6 counterexample input, second row: lead time -2 (invoice two days
before the PO date). -/
def c6_row2 : RawRow :=
  { So_No := 2, Customer_Name := "Bolt", Site_Address := "Y",
    Po_Date := some 10, Scheduled_Date := some 100, Invoice_Dates := some 8,
    PO_Value := some 100, Supplied_Value := some 100,
    Item_Qty_Details := "W|PO Qty: 1|Supplied Qty: 1|x" }

/-- C6 counterexample table. -/
def c6_table : List RawRow := [c6_row1, c6_row2]

/-- The line item the first C6 row expands to. -/
def c6_item1 : LineItem := itemOfLine c6_row1 "W|PO Qty: 1|Supplied Qty: 1|x".data

/-- The line item the second C6 row expands to. -/
def c6_item2 : LineItem := itemOfLine c6_row2 "W|PO Qty: 1|Supplied Qty: 1|x".data

/-- C7 counterexample input row: a single customer with nonzero value. -/
def c7_row : RawRow :=
  { So_No := 1, Customer_Name := "Acme", Site_Address := "X",
    Po_Date := some 0, Scheduled_Date := some 10, Invoice_Dates := some 5,
    PO_Value := some 100, Supplied_Value := some 100,
    Item_Qty_Details := "W|PO Qty: 1|Supplied Qty: 1|x" }

/-- C7 counterexample table. -/
def c7_table : List RawRow := [c7_row]

/-- The line item the C7 row expands to. -/
def c7_item : LineItem := itemOfLine c7_row "W|PO Qty: 1|Supplied Qty: 1|x".data

/-- C7 witness rows: one clean line item, customer total value 100. -/
def c7_rows : List LineItem :=
  [{ toRawRow :=
      { So_No := 1, Customer_Name := "Acme", Site_Address := "X",
        Po_Date := some 0, Scheduled_Date := some 10, Invoice_Dates := some 5,
        PO_Value := some 100, Supplied_Value := some 100,
        Item_Qty_Details := "W|PO Qty: 1|Supplied Qty: 1|x" },
     Product_Name := "W", PO_Qty := 1, Supplied_Qty := 1 }]

/-- C6 witness rows: a single line item with non-negative lead time 5. -/
def c6_nonneg_rows : List LineItem :=
  [{ toRawRow :=
      { So_No := 1, Customer_Name := "Acme", Site_Address := "X",
        Po_Date := some 0, Scheduled_Date := some 10, Invoice_Dates := some 5,
        PO_Value := some 100, Supplied_Value := some 100,
        Item_Qty_Details := "" },
     Product_Name := "W", PO_Qty := 1, Supplied_Qty := 1 }]

/-- C9/C10 sample line item: invoice day 5, scheduled day 10, quantity 2. -/
def c9_item : LineItem :=
  { toRawRow :=
      { So_No := 1, Customer_Name := "Acme", Site_Address := "X",
        Po_Date := some 0, Scheduled_Date := some 10, Invoice_Dates := some 5,
        PO_Value := some 100, Supplied_Value := some 100,
        Item_Qty_Details := "" },
    Product_Name := "W", PO_Qty := 2, Supplied_Qty := 1 }

/-- C10 sample line item with ordered quantity 0. -/
def c10_zero_item : LineItem :=
  { toRawRow :=
      { So_No := 1, Customer_Name := "Acme", Site_Address := "X",
        Po_Date := some 0, Scheduled_Date := some 10, Invoice_Dates := some 5,
        PO_Value := some 100, Supplied_Value := some 100,
        Item_Qty_Details := "" },
    Product_Name := "W", PO_Qty := 0, Supplied_Qty := 0 }

theorem rndEven_intCast (n : ℤ) : rndEven (n : ℚ) = n := by
  unfold rndEven
  norm_num [Int.floor_intCast]

theorem pyRound1_intCast (n : ℤ) : pyRound1 (n : ℚ) = n := by
  rw [pyRound1, show ((n : ℚ) * 10) = ((n * 10 : ℤ) : ℚ) by push_cast; ring,
    rndEven_intCast]
  push_cast
  ring

theorem pyRound2_intCast (n : ℤ) : pyRound2 (n : ℚ) = n := by
  rw [pyRound2, show ((n : ℚ) * 100) = ((n * 100 : ℤ) : ℚ) by push_cast; ring,
    rndEven_intCast]
  push_cast
  ring

theorem expandLine_ok_none_iff (r : RawRow) (line : List Char) :
    expandLine r line = .ok none ↔ ¬ (4 ≤ (line.splitOn '|').length) := by
  unfold expandLine
  split_ifs with h
  · constructor
    · intro hcontra
      cases hpq : qtyOf poQtyLabel line <;> cases hsq : qtyOf suppliedQtyLabel line <;>
        simp [hpq, hsq] at hcontra
    · intro hn; exact absurd h hn
  · simp [h]

theorem expandLine_ok_some (r : RawRow) (line : List Char) (li : LineItem)
    (h : expandLine r line = .ok (some li)) :
    (4 ≤ (line.splitOn '|').length) ∧ li = itemOfLine r line := by
  unfold expandLine at h
  split_ifs at h with hlen
  · refine ⟨hlen, ?_⟩
    cases hpq : qtyOf poQtyLabel line <;> cases hsq : qtyOf suppliedQtyLabel line <;>
      simp [hpq, hsq] at h
    cases h
    simp [itemOfLine, hpq, hsq]
  · simp at h

theorem expandLines_ok_eq (r : RawRow) :
    ∀ (lines : List (List Char)) (partials : List LineItem),
      expandLines r lines = .ok partials →
      partials =
        (lines.filter (fun l => decide (4 ≤ (l.splitOn '|').length))).map
          (itemOfLine r)
  | [], partials, h => by
    simp [expandLines] at h
    simp [h.symm]
  | line :: rest, partials, h => by
    rw [expandLines] at h
    cases hline : expandLine r line with
    | error e => rw [hline] at h; exact absurd h (by simp)
    | ok o =>
      cases o with
      | none =>
        rw [hline] at h
        have hwf := (expandLine_ok_none_iff r line).mp hline
        have ih := expandLines_ok_eq r rest partials h
        simp [List.filter, decide_eq_true_eq, hwf, ih]
      | some li =>
        rw [hline] at h
        obtain ⟨hwf, hli⟩ := expandLine_ok_some r line li hline
        cases hrest : expandLines r rest with
        | error e => rw [hrest] at h; exact absurd h (by simp)
        | ok t =>
          rw [hrest] at h
          have ih := expandLines_ok_eq r rest t hrest
          cases h
          simp [List.filter, decide_eq_true_eq, hwf, hli, ih]

/-- C8: for a raw row on which the expander does not raise, it produces
exactly one line-item partial per item line with at least 4 pipe-separated
parts, in order; the product name is the whitespace-trimmed first part; a
line whose `PO Qty:` (resp. `Supplied Qty:`) pattern has no match gets
quantity 0 for that field; an empty item field yields zero partials. -/
theorem spec_c8_expander (r : RawRow) (partials : List LineItem)
    (h : expandRawRow r = .ok partials) :
    partials = (wfLines r).map (itemOfLine r)
    ∧ partials.length = (wfLines r).length
    ∧ (∀ line, reSearchNum poQtyLabel line = none → (itemOfLine r line).PO_Qty = 0)
    ∧ (∀ line, reSearchNum suppliedQtyLabel line = none →
        (itemOfLine r line).Supplied_Qty = 0)
    ∧ (∀ line ∈ wfLines r, (itemOfLine r line).Product_Name =
        String.mk (trimChars ((line.splitOn '|').headD [])))
    ∧ (r.Item_Qty_Details = "" → partials = []) := by
  rw [expandRawRow] at h
  have he := expandLines_ok_eq r _ _ h
  rw [← wfLines] at he
  refine ⟨he, by rw [he, List.length_map], ?_, ?_, ?_, ?_⟩
  · intro line hnone; simp [itemOfLine, qtyOf, hnone]
  · intro line hnone; simp [itemOfLine, qtyOf, hnone]
  · intro line _; rfl
  · intro h0
    have hw : wfLines r = [] := by rw [wfLines, h0]; rfl
    rw [he, hw]; rfl

/-- C8 witness: on the spec section 8 scenario row the expander succeeds
and the conclusions of `spec_c8_expander` hold. -/
theorem spec_c8_expander_witness :
    expandRawRow scenario_row =
      .ok ((wfLines scenario_row).map (itemOfLine scenario_row))
    ∧ ((wfLines scenario_row).map (itemOfLine scenario_row)).length =
        (wfLines scenario_row).length := by
  have h : expandRawRow scenario_row =
      .ok ((wfLines scenario_row).map (itemOfLine scenario_row)) := by rfl
  exact ⟨h, (spec_c8_expander scenario_row _ h).2.1⟩

/-- C8 counterexample: the row whose only item line is `a|b|c|PO Qty: .`
has exactly one well-formed (4-part) line, yet the expander produces no
partial for it — `float('.')` raises `ValueError` and the run aborts —
refuting the claim that every raw row yields one partial per well-formed
line. -/
theorem spec_c8_counterexample :
    expandRawRow c8_crash_row = .error ()
    ∧ (wfLines c8_crash_row).length = 1 := ⟨rfl, rfl⟩

/-- C3: the claim says no uploaded table makes the pipeline propagate an
exception into the presentation layer; in fact the product-demand stage
selects the column `Ordered_Qty`, which `clean_df` never has (the expander
creates `PO_Qty`), so pandas raises `KeyError` on every run. -/
theorem spec_c3_run_raises (t : List RawRow) : product_trend t = .error () := by
  unfold product_trend
  cases h : clean_df t with
  | error e => cases e; rfl
  | ok rows => rfl

/-- C1: (spec-modelled Revenue Allocator) when an order's total ordered
quantity is 0 every allocated value of the order is 0; when it is positive
and the order's line items carry `PO_Value = some v`, each line item's
allocated value is `v * (own_qty / Total_Qty)` and the allocated values of
the order sum exactly to `v`. -/
theorem spec_c1_allocation (rows : List LineItem) (so : Nat) :
    (Total_Qty rows so = 0 →
      ∀ li ∈ rows, li.So_No = so → Allocated_Value rows li = 0)
    ∧ (∀ v : ℚ, (∀ li ∈ rows, li.So_No = so → li.PO_Value = some v) →
        0 < Total_Qty rows so →
        (∀ li ∈ rows, li.So_No = so →
          Allocated_Value rows li = v * (li.PO_Qty / Total_Qty rows so))
        ∧ orderAllocatedSum rows so = v) := by
  constructor
  · intro h0 li _ hso
    rw [Allocated_Value, hso, h0]
    simp
  · intro v hv hpos
    have hform : ∀ li ∈ rows, li.So_No = so →
        Allocated_Value rows li = v * (li.PO_Qty / Total_Qty rows so) := by
      intro li hmem hso
      rw [Allocated_Value, hso, if_pos hpos, hv li hmem hso]
      rfl
    refine ⟨hform, ?_⟩
    rw [orderAllocatedSum]
    have hcong : (rows.filter (fun li => li.So_No == so)).map (Allocated_Value rows)
        = (rows.filter (fun li => li.So_No == so)).map
            (fun li => (v / Total_Qty rows so) * li.PO_Qty) := by
      apply List.map_congr_left
      intro li hmem
      obtain ⟨hm, hso'⟩ := List.mem_filter.mp hmem
      have hso : li.So_No = so := by simpa using hso'
      rw [hform li hm hso]
      ring
    rw [hcong, List.sum_map_mul_left, ← Total_Qty]
    exact div_mul_cancel₀ v hpos.ne'

theorem total_qty_scenario : Total_Qty scenario_items 1 = 4 := by
  norm_num [Total_Qty, scenario_items, scenario_itemA, scenario_itemB,
    scenario_row, List.filter]

/-- C1 witness: the section 8 scenario — order 1, `PO_Value = 100`, items
with quantities 3 and 1 — gets allocations 75 and 25, summing to 100. -/
theorem spec_c1_allocation_witness :
    (0 : ℚ) < Total_Qty scenario_items 1
    ∧ orderAllocatedSum scenario_items 1 = 100
    ∧ Allocated_Value scenario_items scenario_itemA = 75
    ∧ Allocated_Value scenario_items scenario_itemB = 25 := by
  have hpos : (0 : ℚ) < Total_Qty scenario_items 1 := by
    rw [total_qty_scenario]; norm_num
  have hv : ∀ li ∈ scenario_items, li.So_No = 1 → li.PO_Value = some 100 := by
    intro li hmem _
    simp [scenario_items, scenario_itemA, scenario_itemB, scenario_row] at hmem
    rcases hmem with h | h <;> simp [h, scenario_itemA, scenario_itemB, scenario_row]
  obtain ⟨hform, hsum⟩ := (spec_c1_allocation scenario_items 1).2 100 hv hpos
  refine ⟨hpos, hsum, ?_, ?_⟩
  · rw [hform scenario_itemA (by simp [scenario_items]) rfl, total_qty_scenario]
    norm_num [scenario_itemA]
  · rw [hform scenario_itemB (by simp [scenario_items]) rfl, total_qty_scenario]
    norm_num [scenario_itemB]

theorem dedupBySoAux_of_nodup :
    ∀ (t : List RawRow) (seen : List Nat),
      (∀ r ∈ t, r.So_No ∉ seen) → (t.map (fun r => r.So_No)).Nodup →
      dedupBySoAux seen t = t
  | [], _, _, _ => rfl
  | r :: t, seen, hs, hn => by
    rw [dedupBySoAux]
    have hc : seen.contains r.So_No = false := by
      simpa using hs r (List.mem_cons_self r t)
    rw [hc]
    simp only [Bool.false_eq_true, if_false]
    rw [List.map_cons, List.nodup_cons] at hn
    congr 1
    apply dedupBySoAux_of_nodup t (r.So_No :: seen) ?_ hn.2
    intro x hx
    simp only [List.mem_cons, not_or]
    exact ⟨fun heq => hn.1 (heq ▸ List.mem_map_of_mem (fun r => r.So_No) hx),
           hs x (List.mem_cons_of_mem r hx)⟩

/-- C2: the Total Sales KPI is the sum of `PO_Value` over the RAW table,
without deduplication on order id; it agrees with the deduplicated
(OrderSummaryRow) sum exactly when no order id repeats in the raw input
(this theorem), and a repeated order id contributes once per raw row
(the counterexample). -/
theorem spec_c2_total_sales (t : List RawRow)
    (h : (t.map (fun r => r.So_No)).Nodup) :
    total_sales t = spec_total_sales_dedup t := by
  rw [total_sales, spec_total_sales_dedup, dedupBySo,
    dedupBySoAux_of_nodup t [] (by simp) h]

/-- C2 witness: on a table with two distinct order ids the raw-table sum
and the deduplicated sum coincide. -/
theorem spec_c2_total_sales_witness :
    total_sales c2_nodup_table = spec_total_sales_dedup c2_nodup_table :=
  spec_c2_total_sales c2_nodup_table (by decide)

/-- C2 counterexample: with order id 1 on two raw rows of `PO_Value = 100`
each, the code's `total_sales` is 200 while the claimed deduplicated sum
is 100 — the repeated order id contributes twice, refuting the claim. -/
theorem spec_c2_counterexample :
    total_sales c2_dup_table = 200 ∧ spec_total_sales_dedup c2_dup_table = 100 := by
  constructor
  · rw [total_sales,
      show ((c2_dup_table.map (fun r => r.PO_Value.getD 0)).sum) = ((200:ℤ):ℚ) by
        norm_num [c2_dup_table],
      pyRound2_intCast]
    norm_num
  · rw [spec_total_sales_dedup,
      show (((dedupBySo c2_dup_table).map (fun r => r.PO_Value.getD 0)).sum) = ((100:ℤ):ℚ) by
        norm_num [dedupBySo, dedupBySoAux, c2_dup_table],
      pyRound2_intCast]
    norm_num

/-- C4: the top-20% share computation is unguarded — it is NaN (`none`)
exactly when the total customer value is 0, and a defined percentage
otherwise. -/
theorem spec_c4_share_nan_iff (rows : List LineItem) :
    top20SharePct rows = none ↔ total_value rows = 0 := by
  rw [top20SharePct, npDiv]
  split_ifs with h <;> simp [h]

/-- C4 counterexample: on a one-row table whose only `PO_Value` is 0 the
reported top-20% share is NaN (`none`), not the claimed 0. -/
theorem spec_c4_counterexample :
    top20_share_run c4_table = .ok none
    ∧ top20_share_run c4_table ≠ .ok (some 0) := by
  have hclean : clean_df c4_table = .ok [c4_item] := rfl
  have htv : total_value [c4_item] = 0 := by
    norm_num [total_value, c4_item, itemOfLine, c4_row]
  have hshare : top20SharePct [c4_item] = none := by
    rw [top20SharePct, htv, npDiv]
    simp
  constructor
  · rw [top20_share_run, hclean, Except.map, hshare]
  · rw [top20_share_run, hclean, Except.map, hshare]
    simp

/-- C5: a line item is retained by the date filter iff BOTH its PO date and
its scheduled date parsed; a parseable PO date alone does not retain a row
whose scheduled date is missing (and other missing cells do not drop it). -/
theorem spec_c5_retention (rows : List LineItem) (li : LineItem) :
    (li ∈ rows → li.Po_Date.isSome → li.Scheduled_Date.isSome →
      li ∈ dropMissingDates rows)
    ∧ (li.Po_Date = none → li ∉ dropMissingDates rows)
    ∧ (li.Scheduled_Date = none → li ∉ dropMissingDates rows) := by
  refine ⟨fun hm hp hs => ?_, fun h0 hmem => ?_, fun h0 hmem => ?_⟩
  · rw [dropMissingDates]
    exact List.mem_filter.mpr ⟨hm, by simp [hp, hs]⟩
  · rw [dropMissingDates] at hmem
    obtain ⟨-, hb⟩ := List.mem_filter.mp hmem
    simp [h0] at hb
  · rw [dropMissingDates] at hmem
    obtain ⟨-, hb⟩ := List.mem_filter.mp hmem
    simp [h0] at hb

/-- C5 witness: a row with both dates present is retained; one with a
missing scheduled date is dropped. -/
theorem spec_c5_retention_witness :
    c9_item ∈ dropMissingDates [c9_item]
    ∧ c5_item ∉ dropMissingDates [c5_item] :=
  ⟨(spec_c5_retention [c9_item] c9_item).1 (by simp) rfl rfl,
   (spec_c5_retention [c5_item] c5_item).2.2 rfl⟩

/-- C5 counterexample: the C5 row's PO date parses and the row expands to
one line item, yet `clean_df` is empty — the row is excluded because its
scheduled date failed to parse, refuting the claim that only a missing PO
date excludes a row. -/
theorem spec_c5_counterexample :
    c5_row.Po_Date.isSome = true
    ∧ c5_row.Scheduled_Date = none
    ∧ expanded_rows c5_table = .ok [c5_item]
    ∧ clean_df c5_table = .ok [] :=
  ⟨rfl, rfl, rfl, rfl⟩

/-- C6: the Avg Lead Time KPI is the mean over ALL defined lead times; it
agrees with the spec's mean over defined non-negative lead times exactly on
tables with no negative lead time. -/
theorem spec_c6_avg_lead_time (rows : List LineItem)
    (h : ∀ x ∈ rows.filterMap Lead_Time, (0:ℤ) ≤ x) :
    avg_lead_time rows = spec_avg_lead_time rows := by
  rw [avg_lead_time, spec_avg_lead_time,
    List.filter_eq_self.mpr (fun a ha => by simpa using h a ha)]

/-- C6 witness: with only the non-negative lead time 5 present, the code's
KPI and the spec's filtered mean coincide. -/
theorem spec_c6_avg_lead_time_witness :
    avg_lead_time c6_nonneg_rows = spec_avg_lead_time c6_nonneg_rows :=
  spec_c6_avg_lead_time c6_nonneg_rows (by decide)

/-- C6 counterexample: with lead times 4 and -2 the code's KPI is 1 (the
negative value is included), while the claimed mean over non-negative lead
times is 4. -/
theorem spec_c6_counterexample :
    avg_lead_time_run c6_table = .ok (some 1)
    ∧ spec_avg_lead_time_run c6_table = .ok (some 4) := by
  have hclean : clean_df c6_table = .ok [c6_item1, c6_item2] := rfl
  have hfm : ([c6_item1, c6_item2].filterMap Lead_Time) = [4, -2] := by decide
  have h1 : avg_lead_time [c6_item1, c6_item2] = some 1 := by
    rw [avg_lead_time, hfm]
    norm_num [pyRound1, rndEven]
  have h4 : spec_avg_lead_time [c6_item1, c6_item2] = some 4 := by
    rw [spec_avg_lead_time, hfm]
    norm_num [pyRound1, rndEven]
  constructor
  · rw [avg_lead_time_run, hclean, Except.map, h1]
  · rw [spec_avg_lead_time_run, hclean, Except.map, h4]

theorem insertDescBySnd_length (x : String × ℚ) :
    ∀ l, (insertDescBySnd x l).length = l.length + 1
  | [] => rfl
  | y :: r => by
    rw [insertDescBySnd]
    split_ifs
    · rfl
    · simp [List.length_cons, insertDescBySnd_length x r]

theorem sortDescBySnd_length (l : List (String × ℚ)) :
    (sortDescBySnd l).length = l.length := by
  induction l with
  | nil => rfl
  | cons x t ih =>
    rw [sortDescBySnd, List.foldr_cons, ← sortDescBySnd,
      insertDescBySnd_length, ih, List.length_cons]

theorem top_customers_20perc_length (rows : List LineItem) :
    (top_customers_20perc rows).length = numCustomers rows := by
  rw [top_customers_20perc, sortDescBySnd_length, customerValueSums,
    List.length_map, numCustomers]

/-- C7: the top-20% cut takes `int(0.2 * n)` = `n / 5` (truncating) of the
`n` customers sorted by descending value — NOT the ceiling — so with 1 to 4
customers no customer is taken, the top-20% value is 0, and (when the total
value is nonzero) the reported share is 0%. -/
theorem spec_c7_top20 (rows : List LineItem) :
    top_20perc_customers_value rows =
      pyRound2 ((((top_customers_20perc rows).take (numCustomers rows / 5)).map
        Prod.snd).sum)
    ∧ (0 < numCustomers rows → numCustomers rows < 5 →
        top_20perc_customers_value rows = 0
        ∧ (total_value rows ≠ 0 → top20SharePct rows = some 0)) := by
  have hlen := top_customers_20perc_length rows
  constructor
  · rw [top_20perc_customers_value, hlen]
  · intro _ h5
    have hz : top_20perc_customers_value rows = 0 := by
      rw [top_20perc_customers_value, hlen, Nat.div_eq_of_lt h5]
      norm_num [pyRound2, rndEven]
    refine ⟨hz, fun htv => ?_⟩
    rw [top20SharePct, hz, npDiv, if_neg htv]
    rw [Option.map]
    norm_num [pyRound1, rndEven]

/-- C7 witness: with a single customer of value 100 the code's top-20%
value is 0 and the reported share is 0%. -/
theorem spec_c7_top20_witness :
    top_20perc_customers_value c7_rows = 0
    ∧ top20SharePct c7_rows = some 0 := by
  have h := (spec_c7_top20 c7_rows).2 (by decide) (by decide)
  exact ⟨h.1, h.2 (by norm_num [total_value, c7_rows])⟩

/-- C7 counterexample: on the one-customer table the code's top-20% value
is 0, while the claimed ceiling rule (at least one customer) gives 100. -/
theorem spec_c7_counterexample :
    top20_value_run c7_table = .ok 0
    ∧ spec_top20_value_run c7_table = .ok 100 := by
  have hclean : clean_df c7_table = .ok [c7_item] := rfl
  have hk : customerKeys [c7_item] = ["Acme"] := by decide
  have hcv : customerValueSums [c7_item] = [("Acme", (100:ℚ))] := by
    rw [customerValueSums, hk]
    norm_num [c7_item, itemOfLine, c7_row, List.filter]
  have htop : top_customers_20perc [c7_item] = [("Acme", (100:ℚ))] := by
    rw [top_customers_20perc, hcv]
    rfl
  constructor
  · have hv : top_20perc_customers_value [c7_item] = 0 := by
      rw [top_20perc_customers_value, htop]
      norm_num [pyRound2, rndEven]
    rw [top20_value_run, hclean, Except.map, hv]
  · have hv : spec_top_20perc_customers_value [c7_item] = 100 := by
      rw [spec_top_20perc_customers_value, htop, numCustomers, hk]
      rw [show Nat.ceil (((["Acme"].length : Nat) : ℚ) / 5) = 1 by
        rw [Nat.ceil_eq_iff (by norm_num)]
        norm_num]
      norm_num [pyRound2, rndEven]
    rw [spec_top20_value_run, hclean, Except.map, hv]

/-- C9: a line item surviving the date filter has `Delivery_Status`
`On-Time` iff its invoice date is present, its scheduled date is present
and the invoice date is at most the scheduled date; in every other case —
including a missing invoice date — the status is `Delayed` (there is no
third value). -/
theorem spec_c9_delivery_status (rows : List LineItem) (li : LineItem)
    (_hmem : li ∈ dropMissingDates rows) :
    (Delivery_Status li = "On-Time" ↔
      ∃ i s, li.Invoice_Dates = some i ∧ li.Scheduled_Date = some s ∧ i ≤ s)
    ∧ (Delivery_Status li = "On-Time" ∨ Delivery_Status li = "Delayed")
    ∧ (li.Invoice_Dates = none → Delivery_Status li = "Delayed") := by
  refine ⟨?_, ?_, ?_⟩
  · rw [Delivery_Status, invoiceLeScheduled]
    cases hi : li.Invoice_Dates with
    | none => simp
    | some i =>
      cases hs : li.Scheduled_Date with
      | none => simp
      | some s => by_cases hle : i ≤ s <;> simp [hle]
  · rw [Delivery_Status]
    split_ifs <;> simp
  · intro h0
    rw [Delivery_Status, invoiceLeScheduled, h0]
    cases li.Scheduled_Date <;> rfl

/-- C9 witness: the sample row with invoice day 5 and scheduled day 10
survives the filter and is classified `On-Time`. -/
theorem spec_c9_delivery_status_witness : Delivery_Status c9_item = "On-Time" :=
  (spec_c9_delivery_status [c9_item] c9_item (by decide)).1.mpr
    ⟨5, 10, rfl, rfl, by norm_num⟩

/-- C10: the per-row Average Order Value is `PO_Value / PO_Qty` when
`PO_Qty > 0` and the literal 0 (a defined value, never NaN/inf/exception)
when `PO_Qty = 0`. -/
theorem spec_c10_avg_order_value (li : LineItem) :
    (li.PO_Qty = 0 → Avg_Order_Value li = some 0)
    ∧ (0 < li.PO_Qty →
        Avg_Order_Value li = li.PO_Value.map (fun v => v / li.PO_Qty))
    ∧ (li.PO_Qty = 0 → (Avg_Order_Value li).isSome = true) := by
  refine ⟨fun h0 => ?_, fun hpos => ?_, fun h0 => ?_⟩
  · rw [Avg_Order_Value, h0]
    simp
  · rw [Avg_Order_Value, if_pos hpos]
  · rw [Avg_Order_Value, h0]
    simp

/-- C10 witness: a zero-quantity row gets value 0; a quantity-2 row gets
the divided value. -/
theorem spec_c10_avg_order_value_witness :
    Avg_Order_Value c10_zero_item = some 0
    ∧ Avg_Order_Value c9_item = c9_item.PO_Value.map (fun v => v / c9_item.PO_Qty) :=
  ⟨(spec_c10_avg_order_value c10_zero_item).1 rfl,
   (spec_c10_avg_order_value c9_item).2.1 (by decide)⟩
